import Mathlib

/-!
Verification of the `rn-prodeeplinks` deep-link resolution library.

This file is a shallow embedding of the library's TypeScript sources
(`src/license.ts`, `src/api.ts`, `src/fingerprint.ts`, `src/index.ts`).
Asynchronous network and device calls are modelled by passing their
observable outcomes in explicitly (oracles/environments); JavaScript
exceptions are modelled with `Except String`; JavaScript string
truthiness (`undefined`/`null`/`""` are falsy) is made explicit with
helper functions.  A TS value of type `string | null | undefined` is
modelled as `Option (Option String)` (`none` = absent, `some none` =
null, `some (some s)` = the string `s`).
-/

namespace RnProdeeplinks

/-- JS truthiness of a string: falsy iff empty. -/
def jsStrTruthy (s : String) : Bool := !(s == "")

/-- JS truthiness of a `string | undefined | null` value. -/
def jsOptTruthy : Option String → Bool
  | some s => jsStrTruthy s
  | none => false

/-- JS `x || d` for a possibly-absent string `x`: the default is used when
`x` is `undefined`/`null` or the empty string. -/
def strOr (o : Option String) (d : String) : String :=
  match o with
  | some s => if s = "" then d else s
  | none => d

/-- Whitespace characters trimmed by JS `String.prototype.trim` (the
ones that can occur in this package's error strings). -/
def isJsWhitespaceChar (c : Char) : Bool :=
  c = ' ' || c = '\t' || c = '\n' || c = '\r' || c = '\x0b' || c = '\x0c'

/-- JS `s.trim()`. -/
def jsTrim (s : String) : String :=
  String.mk (((s.data.dropWhile isJsWhitespaceChar).reverse.dropWhile isJsWhitespaceChar).reverse)

/-- Helper for JS `includes`: does `pat` occur as a contiguous run in `hay`? -/
def containsSubChars (hay pat : List Char) : Bool :=
  match hay with
  | [] => List.isPrefixOf pat []
  | _ :: t => List.isPrefixOf pat hay || containsSubChars t pat

/-- JS `s.includes(pat)`. -/
def containsSub (s pat : String) : Bool := containsSubChars s.data pat.data

/-! ## src/license.ts -/

/-- `LicenseValidationResult` from `src/types.ts`. -/
structure LicenseValidationResult where
  isValid : Bool
  message : Option String := none
deriving Repr, DecidableEq

/-- `validateLicenseKeyFormat` from `src/license.ts`: rejects exactly the
keys that are empty or whitespace-only (the `typeof` check is vacuous in
a typed model). -/
def validateLicenseKeyFormat (licenseKey : String) : LicenseValidationResult :=
  if licenseKey = "" ∨ jsTrim licenseKey = "" then
    { isValid := false, message := some "License key is required" }
  else
    { isValid := true }

/-! ## Data model: fingerprint and responses (src/types.ts) -/

/-- `Platform.OS` of React Native as used by this package. -/
inductive PlatformOS where
  | ios
  | android
deriving Repr, DecidableEq

/-- `DeviceFingerprint` from `src/types.ts`. -/
structure DeviceFingerprint where
  platform : PlatformOS
  osVersion : String
  deviceId : String
  deviceModel : String
  manufacturer : Option String := none
  screenResolution : String
  screenWidth : Nat
  screenHeight : Nat
  timezone : Option String := none
  language : Option String := none
  locale : Option String := none
  appVersion : String
  carrier : Option String := none
  connectionType : Option String := none
  isSimulator : Option Bool := none
  isRooted : Option Bool := none
  ipAddress : Option String := none
deriving Repr, DecidableEq

/-- `DeepLinkResponse` from `src/types.ts`.  The `url` field is
`string | null | undefined`: `none` = absent, `some none` = null,
`some (some s)` = present string. -/
structure DeepLinkResponse where
  success : Bool
  url : Option (Option String) := none
  message : Option String := none
  error : Option String := none
deriving Repr, DecidableEq

/-- JS truthiness of `response.url`. -/
def jsUrlTruthy : Option (Option String) → Bool
  | some (some s) => jsStrTruthy s
  | _ => false

/-! ## src/api.ts: fetchDeepLinkUrl -/

/-- The parsed 2xx response body of the Matching Service
(`data` in `fetchDeepLinkUrl`): `success`, optional `url`, optional
`message`.  `url := none` covers both an absent and a null URL. -/
structure ApiBody where
  success : Bool
  url : Option String := none
  message : Option String := none
deriving Repr, DecidableEq

/-- Observable outcome of the single `fetch` performed by
`fetchDeepLinkUrl`: a 2xx response with parsed body, a non-2xx response
(with the optional `message` of its error body; absent when the body did
not parse), an abort fired by the timeout, or any other thrown error
(with its `message`). -/
inductive FetchOutcome where
  | ok (body : ApiBody)
  | httpError (status : Nat) (message : Option String)
  | abortError
  | netError (message : Option String)
deriving Repr, DecidableEq

/-- `fetchDeepLinkUrl` from `src/api.ts`, as a function of the license
key and the observable outcome of its one network call.  The fingerprint
is part of the outgoing payload only and does not influence the result
shape. -/
def fetchDeepLinkUrl (licenseKey : String) (fingerprint : DeviceFingerprint)
    (outcome : FetchOutcome) : DeepLinkResponse :=
  let validation := validateLicenseKeyFormat licenseKey
  if validation.isValid = false then
    { success := false, error := some (strOr validation.message "Invalid license key") }
  else
    match outcome with
    | .httpError status msg =>
        { success := false, error := some (strOr msg ("API error: " ++ toString status)) }
    | .ok body =>
        if body.success then
          match body.url with
          | some u =>
              if u ≠ "" then
                { success := true, url := some (some u), message := body.message }
              else
                -- a falsy (empty) URL takes the no-match branch
                { success := true, url := some none,
                  message := some (strOr body.message "No deep link available") }
          | none =>
              -- success true but no URL means no match found - not an error
              { success := true, url := some none,
                message := some (strOr body.message "No deep link available") }
        else
          { success := false, error := some (strOr body.message "No URL returned from API") }
    | .abortError => { success := false, error := some "Request timeout" }
    | .netError msg =>
        { success := false, error := some (strOr msg "Failed to fetch deep link URL") }

/-! ## src/api.ts: fetchDeepLinkUrlWithRetry -/

/-- Observable trace of one `fetchDeepLinkUrlWithRetry` run: the returned
response, how many times `fetchDeepLinkUrl` was invoked, and the backoff
sleeps (in ms) performed between attempts, in order. -/
structure RetryTrace where
  result : DeepLinkResponse
  calls : Nat
  sleeps : List Nat
deriving Repr, DecidableEq

/-- The retry-skip test of `fetchDeepLinkUrlWithRetry`:
`result.error?.includes('license') || result.error?.includes('Invalid')`. -/
def noRetryError (r : DeepLinkResponse) : Bool :=
  match r.error with
  | some e => containsSub e "license" || containsSub e "Invalid"
  | none => false

/-- The `for` loop of `fetchDeepLinkUrlWithRetry`.  `R i` is the result
of the `i`-th invocation of `fetchDeepLinkUrl` (attempts are numbered
from 1); `attempt` is the current attempt number, the second argument is
the number of attempts still allowed (`retryAttempts - attempt + 1`),
and the third is the `lastError` accumulator. -/
def retryAux (R : Nat → DeepLinkResponse) : Nat → Nat → Option DeepLinkResponse → RetryTrace
  | _, 0, lastError =>
      { result := lastError.getD { success := false, error := some "Failed after retries" },
        calls := 0, sleeps := [] }
  | attempt, n + 1, _ =>
      let r := R attempt
      if r.success then
        { result := r, calls := 1, sleeps := [] }
      else if noRetryError r then
        -- don't retry on license validation errors
        { result := r, calls := 1, sleeps := [] }
      else if n = 0 then
        -- last attempt: no sleep; the loop ends and returns lastError = r
        { result := r, calls := 1, sleeps := [] }
      else
        -- wait 1000 * attempt before the next attempt
        let rest := retryAux R (attempt + 1) n (some r)
        { result := rest.result, calls := rest.calls + 1, sleeps := 1000 * attempt :: rest.sleeps }

/-- `fetchDeepLinkUrlWithRetry` from `src/api.ts`, with the network
modelled by an oracle giving the outcome of each attempt's fetch. -/
def fetchDeepLinkUrlWithRetry (licenseKey : String) (fingerprint : DeviceFingerprint)
    (oracle : Nat → FetchOutcome) (retryAttempts : Nat) : RetryTrace :=
  retryAux (fun i => fetchDeepLinkUrl licenseKey fingerprint (oracle i)) 1 retryAttempts none

/-- The backoff sleeps `[1000*start, 1000*(start+1), ...]` of length `len`. -/
def backoffSeq (start len : Nat) : List Nat :=
  (List.range len).map (fun i => 1000 * (start + i))

/-! ## src/fingerprint.ts -/

/-- The part of a `NetInfo.fetch()` result read by the collector:
`netInfo.type` (null modelled as `none`) and, when `netInfo.details` is
present and has an `ipAddress` key, that value. -/
structure NetInfoState where
  type : Option String := none
  detailsIp : Option String := none
deriving Repr, DecidableEq

/-- Environment of one `generateDeviceFingerprint` run: the observable
behaviour of every device/network API it touches.  `Except String α` is
a call that either returns a value or throws (with the error message);
`Option (Except String α)` is an optionally-present API probed with
`?.()` — `none` means the API does not exist on this platform build.
`Platform.OS`, `Platform.Version`, `Dimensions.get` and the `Intl`
lookups are constants of the host and modelled as plain values. -/
structure FpEnv where
  platform : PlatformOS
  platformVersion : String
  windowWidth : Nat
  windowHeight : Nat
  getUniqueId : Except String String
  getModel : Except String String
  getManufacturer : Except String String
  getSystemVersion : Except String String
  getVersion : Except String String
  getBuildNumber : Except String String
  isEmulator : Except String Bool
  isDeviceRooted : Option (Except String Bool)
  getDeviceLocales : Option (Except String (List String))
  getDeviceLocale : Option (Except String String)
  intlLocale : String
  intlTimeZone : String
  netInfoFetch : Except String NetInfoState
  getCarrier : Except String String
  getIpAddress : Option (Except String String)

/-- `Platform.OS === 'android' ? await DeviceInfo.getManufacturer() : 'Apple'`. -/
def manufacturerStep (env : FpEnv) : Except String String :=
  match env.platform with
  | .android => env.getManufacturer
  | .ios => .ok "Apple"

/-- `Platform.OS === 'android' ? (await (DeviceInfo.isDeviceRooted?.() ?? false)) : false`:
on Android an absent optional API degrades to `false`, a present one may throw. -/
def rootedStep (env : FpEnv) : Except String Bool :=
  match env.platform with
  | .android =>
      match env.isDeviceRooted with
      | some r => r
      | none => .ok false
  | .ios => .ok false

/-- `(DeviceInfo as any).getDeviceLocales?.()`: absent API gives
`undefined` (here `none`), a present API may throw or return the array. -/
def deviceLocalesStep (env : FpEnv) : Except String (Option (List String)) :=
  match env.getDeviceLocales with
  | none => .ok none
  | some (.error e) => .error e
  | some (.ok ls) => .ok (some ls)

/-- `(DeviceInfo as any).getDeviceLocale?.()`: absent API gives `undefined`. -/
def legacyLocaleStep (env : FpEnv) : Except String (Option String) :=
  match env.getDeviceLocale with
  | none => .ok none
  | some (.error e) => .error e
  | some (.ok s) => .ok (some s)

/-- `Platform.OS === 'ios' ? await DeviceInfo.getCarrier() : undefined`. -/
def carrierStep (env : FpEnv) : Except String (Option String) :=
  match env.platform with
  | .ios =>
      match env.getCarrier with
      | .error e => .error e
      | .ok c => .ok (some c)
  | .android => .ok none

/-- JS `a || b` on optional strings (first operand taken when truthy). -/
def jsOr (a b : Option String) : Option String :=
  if jsOptTruthy a then a else b

/-- `Array.isArray(deviceLocales) && deviceLocales.length > 0 ?
deviceLocales[0] : undefined`. -/
def primaryLocaleOf : Option (List String) → Option String
  | some (l :: _) => some l
  | _ => none

/-- `locale.split('-')[0]` — the characters before the first `'-'`. -/
def splitHeadAux : List Char → List Char
  | [] => []
  | c :: cs => if c = '-' then [] else c :: splitHeadAux cs

/-- `s.split('-')[0]` as a string. -/
def jsSplitFirstDash (s : String) : String := String.mk (splitHeadAux s.data)

/-- The inner `try`/`catch` collecting the IP address: a throwing
`getIpAddress` is caught and leaves the IP `undefined` (the NetInfo
fallback is skipped because the throw aborts the guarded block); a falsy
result or an absent API falls back to `netInfo.details.ipAddress`. -/
def ipStep (env : FpEnv) (netInfo : NetInfoState) : Option String :=
  match env.getIpAddress with
  | some (.error _) => none
  | some (.ok ip) => if ip ≠ "" then some ip else netInfo.detailsIp
  | none => netInfo.detailsIp

/-- The body of the outer `try` of `generateDeviceFingerprint`: every
awaited/synchronous device call that can throw is sequenced; the first
throw aborts the whole block (there is no per-source isolation except
`ipStep`).  Pure steps (locale chain, timezone, resolution) cannot throw. -/
def generateDeviceFingerprintTry (env : FpEnv) : Except String DeviceFingerprint :=
  let width := env.windowWidth
  let height := env.windowHeight
  let screenResolution := toString width ++ "x" ++ toString height
  match env.getUniqueId with
  | .error e => .error e
  | .ok deviceId =>
  match env.getModel with
  | .error e => .error e
  | .ok deviceModel =>
  match manufacturerStep env with
  | .error e => .error e
  | .ok manufacturer =>
  match env.getSystemVersion with
  | .error e => .error e
  | .ok osVersion =>
  match env.getVersion with
  | .error e => .error e
  | .ok appVersion =>
  match env.getBuildNumber with
  | .error e => .error e
  | .ok buildNumber =>
  match env.isEmulator with
  | .error e => .error e
  | .ok isSimulator =>
  match rootedStep env with
  | .error e => .error e
  | .ok isRooted =>
  match deviceLocalesStep env with
  | .error e => .error e
  | .ok deviceLocales =>
  match legacyLocaleStep env with
  | .error e => .error e
  | .ok legacyLocale =>
  let primaryLocale := primaryLocaleOf deviceLocales
  let locale := strOr (jsOr primaryLocale (jsOr legacyLocale (some env.intlLocale))) "en"
  let language := strOr (some (jsSplitFirstDash locale)) "en"
  let timezone := env.intlTimeZone
  match env.netInfoFetch with
  | .error e => .error e
  | .ok netInfo =>
  let connectionType := jsOr netInfo.type none
  match carrierStep env with
  | .error e => .error e
  | .ok carrier =>
  let ipAddress := ipStep env netInfo
  .ok
    { platform := env.platform
      osVersion := osVersion
      deviceId := deviceId
      deviceModel := deviceModel
      manufacturer := some manufacturer
      screenResolution := screenResolution
      screenWidth := width
      screenHeight := height
      timezone := some timezone
      language := some language
      locale := some locale
      appVersion := appVersion ++ " (" ++ buildNumber ++ ")"
      carrier := carrier
      connectionType := connectionType
      isSimulator := some isSimulator
      isRooted := some isRooted
      ipAddress := ipAddress }

/-- The `catch` branch of `generateDeviceFingerprint`: the minimal
fingerprint built from the host constants and fixed fallback values. -/
def minimalFingerprint (env : FpEnv) : DeviceFingerprint :=
  { platform := env.platform
    osVersion := env.platformVersion
    deviceId := "unknown"
    deviceModel := "unknown"
    screenResolution := toString env.windowWidth ++ "x" ++ toString env.windowHeight
    screenWidth := env.windowWidth
    screenHeight := env.windowHeight
    appVersion := "unknown" }

/-- `generateDeviceFingerprint` from `src/fingerprint.ts`: the whole
collection runs in one `try`; any throw falls back to the minimal
fingerprint. -/
def generateDeviceFingerprint (env : FpEnv) : DeviceFingerprint :=
  match generateDeviceFingerprintTry env with
  | .ok fp => fp
  | .error _ => minimalFingerprint env

/-! ## src/api.ts: validateLicenseInit -/

/-- The parsed body of the Validation Service response: truthiness of
`data.success` and `data.valid`, with the optional `message`/`error`
strings. -/
structure LicenseValidationBody where
  success : Bool := false
  valid : Bool := false
  message : Option String := none
  error : Option String := none
deriving Repr, DecidableEq

/-- Observable outcome of the `fetch` in `validateLicenseInit`: a 2xx
response with parsed body, a non-2xx response with (attempted) parsed
body, or a thrown error with its message. -/
inductive ValidateHttp where
  | ok (body : LicenseValidationBody)
  | httpError (status : Nat) (body : LicenseValidationBody)
  | thrown (message : Option String)
deriving Repr, DecidableEq

/-- A `{ success, error? }` result as returned by `init` and
`validateLicenseInit`. -/
structure SimpleResult where
  success : Bool
  error : Option String := none
deriving Repr, DecidableEq

/-- `validateLicenseInit` from `src/api.ts` (the `status`/`data`
passthrough fields are not modelled; `init` only reads `success` and
`error`). -/
def validateLicenseInit (outcome : ValidateHttp) : SimpleResult :=
  match outcome with
  | .httpError _ body =>
      { success := false, error := some (strOr body.message (strOr body.error "License validation failed")) }
  | .ok body =>
      if body.success = false ∨ body.valid = false then
        { success := false, error := some (strOr body.message (strOr body.error "License is not valid")) }
      else
        { success := true }
  | .thrown m =>
      { success := false, error := some (strOr m "License validation request failed") }

/-! ## src/index.ts: module state, init, isReady, reset -/

/-- The two module-level variables of `src/index.ts`:
`storedLicenseKey` and `isInitialized`. -/
structure ModuleState where
  storedLicenseKey : Option String
  isInitialized : Bool
deriving Repr, DecidableEq

/-- `isReady` from `src/index.ts`: `isInitialized && storedLicenseKey !== null`. -/
def isReady (st : ModuleState) : Bool :=
  st.isInitialized && st.storedLicenseKey.isSome

/-- The module state after `reset()`: both variables cleared. -/
def reset : ModuleState :=
  { storedLicenseKey := none, isInitialized := false }

/-- Observable outcome of one `init` call: the new module state, the
returned `{ success, error? }`, and how many times the remote
Validation Service was called (0 or 1). -/
structure InitOutcome where
  state : ModuleState
  result : SimpleResult
  validationCalls : Nat
deriving Repr, DecidableEq

/-- `init` from `src/index.ts`, as a transition on the module state.
The remote call's observable outcome is passed as `remote`; it is only
consumed (counted) when the local format check passes. -/
def init (st : ModuleState) (licenseKey : String) (remote : ValidateHttp) : InitOutcome :=
  let validation := validateLicenseKeyFormat licenseKey
  if validation.isValid = false then
    { state := st
      result := { success := false, error := some (strOr validation.message "Invalid license key") }
      validationCalls := 0 }
  else
    let remoteValidation := validateLicenseInit remote
    if remoteValidation.success = false then
      { state := st
        result := { success := false, error := some (strOr remoteValidation.error "License validation failed") }
        validationCalls := 1 }
    else
      { state := { storedLicenseKey := some licenseKey, isInitialized := true }
        result := { success := true }
        validationCalls := 1 }

/-! ## src/index.ts: trackAnalyticsEvent -/

/-- `CustomDeepLinkAnalyticsEvent` from `src/types.ts` (representative
fields; `extra` models the index-signature entries). -/
structure AnalyticsEvent where
  licenseKey : Option String := none
  eventType : String
  eventName : String
  category : Option String := none
  action : Option String := none
  label : Option String := none
  value : Option Int := none
  properties : List (String × String) := []
  sessionId : Option String := none
  userId : Option String := none
  extra : List (String × String) := []
deriving Repr, DecidableEq

/-- The outgoing HTTP request of `trackCustomDeepLinkEvent`: the
`x-license-key` header (present only for a truthy key argument) and the
JSON body. -/
structure AnalyticsRequest where
  headerLicenseKey : Option String
  body : AnalyticsEvent
deriving Repr, DecidableEq

/-- `trackCustomDeepLinkEvent` from `src/api.ts`, modelled by the
request it sends (the server echo and the catch-all failure result do
not affect any caller in this package). -/
def trackCustomDeepLinkEvent (event : AnalyticsEvent) (licenseKey : Option String) :
    AnalyticsRequest :=
  { headerLicenseKey := if jsOptTruthy licenseKey then licenseKey else none
    body := event }

/-- Outcome of `trackAnalyticsEvent`: rejected locally, or sent as a
request. -/
inductive TrackOutcome where
  | rejected (error : String)
  | sent (request : AnalyticsRequest)
deriving Repr, DecidableEq

/-- `trackAnalyticsEvent` from `src/index.ts`: rejects when
uninitialized, otherwise strips the `licenseKey` property from the event
(`const { licenseKey: _ignored, ...payload } = event`) and forwards the
payload with the stored key. -/
def trackAnalyticsEvent (st : ModuleState) (event : AnalyticsEvent) : TrackOutcome :=
  if st.isInitialized = false then
    .rejected "Please call init() first with your license key"
  else
    match st.storedLicenseKey with
    | none => .rejected "Please call init() first with your license key"
    | some key =>
        if key = "" then .rejected "Please call init() first with your license key"
        else .sent (trackCustomDeepLinkEvent { event with licenseKey := none } (some key))

/-! ## src/index.ts: getDeepLink -/

/-- Environment of one `getDeepLink` call: the launch-URL probe result
(`Linking.getInitialURL`, null modelled as `none`), the outcome of
`generateDeviceFingerprint` (modelled fallible so the outer `try` is
meaningful), the outcome of the awaited analytics send, and the
oracle for the Matching Service fetches. -/
structure ResolveEnv where
  initialUrl : Option String
  fingerprintOutcome : Except String DeviceFingerprint
  trackOutcome : Except String Unit
  oracle : Nat → FetchOutcome

/-- Observable outcome of one `getDeepLink` call: the returned
response, the number of Matching Service calls (`fetchDeepLinkUrl`
invocations) and the number of fingerprint collections performed. -/
structure ResolveOutcome where
  response : DeepLinkResponse
  apiCalls : Nat
  fingerprintRuns : Nat
deriving Repr, DecidableEq

/-- The fixed rejection of a resolution call made before `init`. -/
def notInitOutcome : ResolveOutcome :=
  { response := { success := false, error := some "Please call init() first with your license key" }
    apiCalls := 0
    fingerprintRuns := 0 }

/-- The Hit result for a launch URL `u`: `{ success: true, url: u }`. -/
def hitOutcome (u : String) : ResolveOutcome :=
  { response := { success := true, url := some (some u) }
    apiCalls := 0
    fingerprintRuns := 1 }

/-- The fingerprint-matching branch of `getDeepLink` (no launch URL):
collect a fingerprint (a throw here escapes to the outer `catch`), call
`fetchDeepLinkUrlWithRetry` with 3 attempts, then normalise any result
without a usable URL to `{ success: true, url: null }`.  The analytics
send on the success branch is wrapped in `try`/`catch` and its outcome
cannot influence the returned value. -/
def apiPath (storedKey : String) (env : ResolveEnv) : ResolveOutcome :=
  match env.fingerprintOutcome with
  | .error e =>
      { response := { success := false, error := some (strOr (some e) "Unknown error occurred") }
        apiCalls := 0
        fingerprintRuns := 1 }
  | .ok fingerprint =>
      let trace := fetchDeepLinkUrlWithRetry storedKey fingerprint env.oracle 3
      if trace.result.success = false ∨ jsUrlTruthy trace.result.url = false then
        { response := { success := true, url := some none, message := some "No deep link available" }
          apiCalls := trace.calls
          fingerprintRuns := 1 }
      else
        { response := trace.result
          apiCalls := trace.calls
          fingerprintRuns := 1 }

/-- `getDeepLink` from `src/index.ts`.  The guard rejects when
`!isInitialized || !storedLicenseKey`.  A truthy launch URL is a Hit:
the fingerprint/analytics side effects run inside `try`/`catch` and
every one of their outcomes yields the same Hit.  Otherwise the
fingerprint-matching branch runs. -/
def getDeepLink (st : ModuleState) (env : ResolveEnv) : ResolveOutcome :=
  if st.isInitialized = false then notInitOutcome
  else
    match st.storedLicenseKey with
    | none => notInitOutcome
    | some storedKey =>
        if storedKey = "" then notInitOutcome
        else
          match env.initialUrl with
          | some u =>
              if u = "" then apiPath storedKey env
              else
                match env.fingerprintOutcome with
                | .error _ => hitOutcome u
                | .ok _ =>
                    match env.trackOutcome with
                    | .error _ => hitOutcome u
                    | .ok _ => hitOutcome u
          | none => apiPath storedKey env

/-! ## Spec-side definitions (for refinement comparison)

The following definitions follow the specification's words, not the
source; they exist only to be compared against the source-derived
locale computation in `generateDeviceFingerprintTry`. -/

/-- Spec side, last link of the locale chain: "host runtime's resolved
locale", else the fixed default `"en"` (a link is usable when it yields
a nonempty string). -/
def localeIntlSpec (env : FpEnv) : String :=
  if env.intlLocale ≠ "" then env.intlLocale else "en"

/-- Spec side, middle link: "legacy locale API" when the API is present
and yields a usable (nonempty) locale, else the next link. -/
def localeLegacySpec (env : FpEnv) : String :=
  match env.getDeviceLocale with
  | some (Except.ok s) => if s ≠ "" then s else localeIntlSpec env
  | _ => localeIntlSpec env

/-- Spec side: the ordered fallback chain "platform-reported primary
locale → legacy locale API → host runtime's resolved locale → fixed
default en". -/
def localeChainSpec (env : FpEnv) : String :=
  match env.getDeviceLocales with
  | some (Except.ok (l :: _)) => if l ≠ "" then l else localeLegacySpec env
  | _ => localeLegacySpec env

/-- Spec side: "the primary subtag of that locale before any region
separator". -/
def languageSpec (s : String) : String :=
  String.mk (s.data.takeWhile (fun c => c != '-'))

/-! ## Concrete sample inputs used by witnesses and counterexamples -/

/-- A representative device fingerprint. -/
def sampleFp : DeviceFingerprint :=
  { platform := .android, osVersion := "14", deviceId := "dev-1", deviceModel := "Pixel 8",
    screenResolution := "1080x2400", screenWidth := 1080, screenHeight := 2400,
    appVersion := "1.0.0 (42)" }

/-- A module state after a successful `init` with key `"LK-123"`. -/
def stReady : ModuleState := { storedLicenseKey := some "LK-123", isInitialized := true }

/-- A resolution environment: no launch URL, fingerprint collection
succeeds, every Matching Service attempt times out. -/
def envFail : ResolveEnv :=
  { initialUrl := none, fingerprintOutcome := .ok sampleFp, trackOutcome := .ok (),
    oracle := fun _ => FetchOutcome.abortError }

/-- A resolution environment: launch URL present while both the
fingerprint collection and the analytics send fail. -/
def envHit : ResolveEnv :=
  { initialUrl := some "https://app/x", fingerprintOutcome := .error "fingerprint boom",
    trackOutcome := .error "track boom", oracle := fun _ => FetchOutcome.abortError }

/-- A fingerprint environment in which every source is available and
healthy except the rooted-check API, which throws. -/
def envRoot : FpEnv :=
  { platform := .android, platformVersion := "14", windowWidth := 1080, windowHeight := 2400,
    getUniqueId := .ok "dev-1", getModel := .ok "Pixel 8", getManufacturer := .ok "Google",
    getSystemVersion := .ok "14", getVersion := .ok "1.0.0", getBuildNumber := .ok "42",
    isEmulator := .ok false, isDeviceRooted := some (.error "sensor failure"),
    getDeviceLocales := some (.ok ["fr-FR"]), getDeviceLocale := none,
    intlLocale := "en-US", intlTimeZone := "UTC",
    netInfoFetch := .ok { type := some "wifi", detailsIp := some "1.2.3.4" },
    getCarrier := .ok "", getIpAddress := some (.ok "10.0.0.2") }

/-- Like `envRoot` but with a healthy rooted check and a throwing IP
lookup. -/
def envIp : FpEnv :=
  { envRoot with isDeviceRooted := some (.ok false), getIpAddress := some (.error "ip fail") }

/-- Like `envRoot` but with the identity sources throwing as well. -/
def envThrowAll : FpEnv :=
  { envRoot with
    getUniqueId := .error "boom"
    getModel := .error "boom"
    getSystemVersion := .error "boom" }

/-- Like `envRoot` but with every source healthy. -/
def envLoc : FpEnv := { envRoot with isDeviceRooted := some (.ok false) }

/-- A caller-supplied analytics event carrying a `licenseKey` property. -/
def sampleEvent : AnalyticsEvent :=
  { licenseKey := some "leaked-key", eventType := "deeplink", eventName := "pro_track",
    category := some "api", label := some "https://app/x" }

/-! ## Helper lemmas -/

lemma backoffSeq_succ (a m : Nat) : backoffSeq a (m + 1) = 1000 * a :: backoffSeq (a + 1) m := by
  simp only [backoffSeq, List.range_succ_eq_map, List.map_cons, List.map_map, Nat.add_zero]
  congr 1
  apply List.map_congr_left
  intro i _
  simp only [Function.comp_apply]
  omega

lemma retryAux_calls_le (R : Nat → DeepLinkResponse) :
    ∀ (r a : Nat) (le : Option DeepLinkResponse), (retryAux R a r le).calls ≤ r := by
  intro r
  induction r with
  | zero => intro a le; simp [retryAux]
  | succ n ih =>
    intro a le
    by_cases hs : (R a).success = true
    · simp [retryAux, hs]
    · by_cases hn : noRetryError (R a) = true
      · simp [retryAux, hs, hn]
      · by_cases h0 : n = 0
        · simp [retryAux, hs, hn, h0]
        · have h := ih (a + 1) (some (R a))
          simp [retryAux, hs, hn, h0]
          omega

lemma retryAux_stop (R : Nat → DeepLinkResponse) :
    ∀ (r a k : Nat) (le : Option DeepLinkResponse),
      a ≤ k → k < a + r →
      (∀ j, a ≤ j → j < k → (R j).success = false ∧ noRetryError (R j) = false) →
      ((R k).success = true ∨ noRetryError (R k) = true) →
      retryAux R a r le = { result := R k, calls := k + 1 - a, sleeps := backoffSeq a (k - a) } := by
  intro r
  induction r with
  | zero => intro a k le hak hkr _ _; omega
  | succ n ih =>
    intro a k le hak hkr hall hlast
    by_cases heq : k = a
    · subst heq
      have hc : k + 1 - k = 1 := by omega
      have hsl : k - k = 0 := by omega
      rcases hlast with hs | hn
      · simp [retryAux, hs, hc, hsl, backoffSeq]
      · by_cases hs : (R k).success = true
        · simp [retryAux, hs, hc, hsl, backoffSeq]
        · simp [retryAux, hs, hn, hc, hsl, backoffSeq]
    · have hak' : a + 1 ≤ k := by omega
      have hfa := hall a (le_refl a) (by omega)
      have hn1 : n ≠ 0 := by omega
      simp only [retryAux]
      rw [if_neg (by simp [hfa.1]), if_neg (by simp [hfa.2]), if_neg hn1]
      rw [ih (a + 1) k (some (R a)) hak' (by omega)
        (fun j hj1 hj2 => hall j (by omega) hj2) hlast]
      dsimp only
      have hc : k + 1 - (a + 1) + 1 = k + 1 - a := by omega
      rw [hc]
      have hsl : k - a = (k - (a + 1)) + 1 := by omega
      rw [hsl, backoffSeq_succ]

lemma retryAux_exhaust (R : Nat → DeepLinkResponse) :
    ∀ (r a : Nat) (le : Option DeepLinkResponse), 1 ≤ r →
      (∀ j, a ≤ j → j < a + r → (R j).success = false ∧ noRetryError (R j) = false) →
      retryAux R a r le = { result := R (a + r - 1), calls := r, sleeps := backoffSeq a (r - 1) } := by
  intro r
  induction r with
  | zero => intro a le h1 _; omega
  | succ n ih =>
    intro a le _ hall
    have hfa := hall a (le_refl a) (by omega)
    by_cases h0 : n = 0
    · subst h0
      simp [retryAux, hfa.1, hfa.2, backoffSeq]
    · simp only [retryAux]
      rw [if_neg (by simp [hfa.1]), if_neg (by simp [hfa.2]), if_neg h0]
      rw [ih (a + 1) (some (R a)) (by omega)
        (fun j hj1 hj2 => hall j (by omega) (by omega))]
      dsimp only
      have hidx : a + 1 + n - 1 = a + (n + 1) - 1 := by omega
      rw [hidx]
      have hlen : n + 1 - 1 = (n - 1) + 1 := by omega
      rw [hlen, backoffSeq_succ]

lemma xjoin_ne_empty (a b : String) : a ++ "x" ++ b ≠ "" := by
  intro hcontra
  have hl := congrArg String.length hcontra
  rw [String.length_append, String.length_append] at hl
  have hx : ("x" : String).length = 1 := rfl
  have h0 : ("" : String).length = 0 := rfl
  rw [hx, h0] at hl
  omega

lemma appver_ne_empty (v bn : String) : v ++ " (" ++ bn ++ ")" ≠ "" := by
  intro hcontra
  have hl := congrArg String.length hcontra
  rw [String.length_append, String.length_append, String.length_append] at hl
  have hp : (" (" : String).length = 2 := rfl
  have hq : (")" : String).length = 1 := rfl
  have h0 : ("" : String).length = 0 := rfl
  rw [hp, hq, h0] at hl
  omega

/-- Inverse characterisation of a successful `generateDeviceFingerprintTry`
run: all sources must have been healthy and every field is determined. -/
lemma generateDeviceFingerprintTry_ok_inv (env : FpEnv) (fp : DeviceFingerprint)
    (h : generateDeviceFingerprintTry env = .ok fp) :
    ∃ uid mdl mfr osv ver bn sim rt dl ll ni car,
      env.getUniqueId = .ok uid ∧ env.getModel = .ok mdl ∧
      manufacturerStep env = .ok mfr ∧ env.getSystemVersion = .ok osv ∧
      env.getVersion = .ok ver ∧ env.getBuildNumber = .ok bn ∧
      env.isEmulator = .ok sim ∧ rootedStep env = .ok rt ∧
      deviceLocalesStep env = .ok dl ∧ legacyLocaleStep env = .ok ll ∧
      env.netInfoFetch = .ok ni ∧ carrierStep env = .ok car ∧
      fp =
        { platform := env.platform
          osVersion := osv
          deviceId := uid
          deviceModel := mdl
          manufacturer := some mfr
          screenResolution := toString env.windowWidth ++ "x" ++ toString env.windowHeight
          screenWidth := env.windowWidth
          screenHeight := env.windowHeight
          timezone := some env.intlTimeZone
          language := some (strOr (some (jsSplitFirstDash
            (strOr (jsOr (primaryLocaleOf dl) (jsOr ll (some env.intlLocale))) "en"))) "en")
          locale := some (strOr (jsOr (primaryLocaleOf dl) (jsOr ll (some env.intlLocale))) "en")
          appVersion := ver ++ " (" ++ bn ++ ")"
          carrier := car
          connectionType := jsOr ni.type none
          isSimulator := some sim
          isRooted := some rt
          ipAddress := ipStep env ni } := by
  cases c1 : env.getUniqueId with
  | error e => rw [generateDeviceFingerprintTry, c1] at h; simp at h
  | ok uid =>
  cases c2 : env.getModel with
  | error e => rw [generateDeviceFingerprintTry, c1, c2] at h; simp at h
  | ok mdl =>
  cases c3 : manufacturerStep env with
  | error e => rw [generateDeviceFingerprintTry, c1, c2, c3] at h; simp at h
  | ok mfr =>
  cases c4 : env.getSystemVersion with
  | error e => rw [generateDeviceFingerprintTry, c1, c2, c3, c4] at h; simp at h
  | ok osv =>
  cases c5 : env.getVersion with
  | error e => rw [generateDeviceFingerprintTry, c1, c2, c3, c4, c5] at h; simp at h
  | ok ver =>
  cases c6 : env.getBuildNumber with
  | error e => rw [generateDeviceFingerprintTry, c1, c2, c3, c4, c5, c6] at h; simp at h
  | ok bn =>
  cases c7 : env.isEmulator with
  | error e => rw [generateDeviceFingerprintTry, c1, c2, c3, c4, c5, c6, c7] at h; simp at h
  | ok sim =>
  cases c8 : rootedStep env with
  | error e => rw [generateDeviceFingerprintTry, c1, c2, c3, c4, c5, c6, c7, c8] at h; simp at h
  | ok rt =>
  cases c9 : deviceLocalesStep env with
  | error e => rw [generateDeviceFingerprintTry, c1, c2, c3, c4, c5, c6, c7, c8, c9] at h; simp at h
  | ok dl =>
  cases c10 : legacyLocaleStep env with
  | error e =>
      rw [generateDeviceFingerprintTry, c1, c2, c3, c4, c5, c6, c7, c8, c9, c10] at h; simp at h
  | ok ll =>
  cases c11 : env.netInfoFetch with
  | error e =>
      rw [generateDeviceFingerprintTry, c1, c2, c3, c4, c5, c6, c7, c8, c9, c10, c11] at h
      simp at h
  | ok ni =>
  cases c12 : carrierStep env with
  | error e =>
      rw [generateDeviceFingerprintTry, c1, c2, c3, c4, c5, c6, c7, c8, c9, c10, c11, c12] at h
      simp at h
  | ok car =>
      rw [generateDeviceFingerprintTry, c1, c2, c3, c4, c5, c6, c7, c8, c9, c10, c11, c12] at h
      simp only [Except.ok.injEq] at h
      exact ⟨uid, mdl, mfr, osv, ver, bn, sim, rt, dl, ll, ni, car,
        rfl, rfl, rfl, rfl, rfl, rfl, rfl, rfl, rfl, rfl, rfl, rfl, h.symm⟩

lemma splitHeadAux_eq_takeWhile (l : List Char) :
    splitHeadAux l = l.takeWhile (fun c => c != '-') := by
  induction l with
  | nil => rfl
  | cons c t ih =>
    by_cases hc : c = '-'
    · simp [splitHeadAux, List.takeWhile_cons, hc]
    · simp [splitHeadAux, List.takeWhile_cons, hc, ih]

/-- The source's locale expression equals the spec's ordered fallback
chain. -/
lemma chain_eq_spec (env : FpEnv) (dl : Option (List String)) (ll : Option String)
    (h9 : deviceLocalesStep env = .ok dl) (h10 : legacyLocaleStep env = .ok ll) :
    strOr (jsOr (primaryLocaleOf dl) (jsOr ll (some env.intlLocale))) "en" =
      localeChainSpec env := by
  have hleg : strOr (jsOr ll (some env.intlLocale)) "en" = localeLegacySpec env := by
    cases hgl : env.getDeviceLocale with
    | none =>
        rw [legacyLocaleStep, hgl] at h10
        simp only [Except.ok.injEq] at h10
        subst h10
        simp [jsOr, jsOptTruthy, localeLegacySpec, hgl, localeIntlSpec, strOr]
    | some r =>
      cases r with
      | error e => rw [legacyLocaleStep, hgl] at h10; simp at h10
      | ok s =>
          rw [legacyLocaleStep, hgl] at h10
          simp only [Except.ok.injEq] at h10
          subst h10
          by_cases hs : s = ""
          · simp [jsOr, jsOptTruthy, jsStrTruthy, hs, localeLegacySpec, hgl, localeIntlSpec, strOr]
          · simp [jsOr, jsOptTruthy, jsStrTruthy, hs, localeLegacySpec, hgl, strOr]
  cases hgls : env.getDeviceLocales with
  | none =>
      rw [deviceLocalesStep, hgls] at h9
      simp only [Except.ok.injEq] at h9
      subst h9
      simp [primaryLocaleOf, jsOr, jsOptTruthy, localeChainSpec, hgls]
      exact hleg
  | some r =>
    cases r with
    | error e => rw [deviceLocalesStep, hgls] at h9; simp at h9
    | ok ls =>
        rw [deviceLocalesStep, hgls] at h9
        simp only [Except.ok.injEq] at h9
        subst h9
        cases ls with
        | nil =>
            simp [primaryLocaleOf, jsOr, jsOptTruthy, localeChainSpec, hgls]
            exact hleg
        | cons l t =>
            by_cases hl : l = ""
            · simp [primaryLocaleOf, jsOr, jsOptTruthy, jsStrTruthy, hl, localeChainSpec, hgls]
              exact hleg
            · simp [primaryLocaleOf, jsOr, jsOptTruthy, jsStrTruthy, hl, localeChainSpec, hgls,
                strOr]

/-- Any throw reaching the end of the awaited source sequence (here:
the rooted check) aborts the whole collection. -/
lemma fingerprint_rooted_throw_minimal (env : FpEnv) (e : String)
    (h : rootedStep env = .error e) :
    generateDeviceFingerprint env = minimalFingerprint env := by
  cases c1 : env.getUniqueId with
  | error e1 => simp [generateDeviceFingerprint, generateDeviceFingerprintTry, c1]
  | ok uid =>
  cases c2 : env.getModel with
  | error e2 => simp [generateDeviceFingerprint, generateDeviceFingerprintTry, c1, c2]
  | ok mdl =>
  cases c3 : manufacturerStep env with
  | error e3 => simp [generateDeviceFingerprint, generateDeviceFingerprintTry, c1, c2, c3]
  | ok mfr =>
  cases c4 : env.getSystemVersion with
  | error e4 => simp [generateDeviceFingerprint, generateDeviceFingerprintTry, c1, c2, c3, c4]
  | ok osv =>
  cases c5 : env.getVersion with
  | error e5 => simp [generateDeviceFingerprint, generateDeviceFingerprintTry, c1, c2, c3, c4, c5]
  | ok ver =>
  cases c6 : env.getBuildNumber with
  | error e6 =>
      simp [generateDeviceFingerprint, generateDeviceFingerprintTry, c1, c2, c3, c4, c5, c6]
  | ok bn =>
  cases c7 : env.isEmulator with
  | error e7 =>
      simp [generateDeviceFingerprint, generateDeviceFingerprintTry, c1, c2, c3, c4, c5, c6, c7]
  | ok sim =>
      simp [generateDeviceFingerprint, generateDeviceFingerprintTry, c1, c2, c3, c4, c5, c6, c7, h]

/-- A throwing IP lookup is contained by its inner catch: the run still
completes with the other sources collected. -/
lemma fingerprint_ip_throw_contained (env : FpEnv) (e : String) (fp : DeviceFingerprint)
    (hip : env.getIpAddress = some (.error e))
    (h : generateDeviceFingerprintTry env = .ok fp) :
    fp.ipAddress = none ∧ fp.timezone = some env.intlTimeZone ∧
    fp.locale ≠ none ∧ fp.isSimulator ≠ none := by
  obtain ⟨uid, mdl, mfr, osv, ver, bn, sim, rt, dl, ll, ni, car,
    _, _, _, _, _, _, _, _, _, _, _, _, hfp⟩ :=
    generateDeviceFingerprintTry_ok_inv env fp h
  subst hfp
  refine ⟨?_, rfl, by simp, by simp⟩
  simp [ipStep, hip]

/-! ## Claim theorems -/

/-- C1 (counterexample): with the probe returning none and every
Matching Service attempt timing out, the retries are exhausted with a
transport failure (conjuncts 1-3), yet `getDeepLink` returns the Miss
shape with `success = true` and `url = null` instead of a Failed
outcome, contradicting the claim. -/
theorem getDeepLink_conflates_failure_with_miss_cex :
    envFail.initialUrl = none ∧
    (fetchDeepLinkUrl "LK-123" sampleFp FetchOutcome.abortError).success = false ∧
    (fetchDeepLinkUrlWithRetry "LK-123" sampleFp envFail.oracle 3).result.success = false ∧
    getDeepLink stReady envFail =
      { response := { success := true, url := some none, message := some "No deep link available" }
        apiCalls := 3
        fingerprintRuns := 1 } :=
  ⟨rfl, rfl, rfl, rfl⟩

/-- C1 (amended): when the launch-URL probe returns none and the
Resolution Client exhausts its retries with a failure, `getDeepLink`
returns the Miss shape `{ success: true, url: null,
message: 'No deep link available' }` — the retry failure is conflated
with Miss; a `success = false` Failed outcome arises on this path only
from a thrown exception, never from the Resolution Client's failure
result. -/
theorem getDeepLink_retry_failure_is_miss_shape (st : ModuleState) (env : ResolveEnv)
    (key : String) (fp : DeviceFingerprint)
    (hinit : st.isInitialized = true) (hkey : st.storedLicenseKey = some key) (hk : key ≠ "")
    (hurl : env.initialUrl = none) (hfp : env.fingerprintOutcome = .ok fp)
    (hfail : (fetchDeepLinkUrlWithRetry key fp env.oracle 3).result.success = false) :
    (getDeepLink st env).response =
      { success := true, url := some none, message := some "No deep link available" } := by
  have hpath : getDeepLink st env = apiPath key env := by
    simp [getDeepLink, hinit, hkey, hk, hurl]
  rw [hpath]
  simp [apiPath, hfp, hfail]

/-- Witness for C1's amended theorem at a concrete timing-out
environment. -/
theorem getDeepLink_retry_failure_is_miss_shape_witness :
    (getDeepLink stReady envFail).response =
      { success := true, url := some none, message := some "No deep link available" } :=
  getDeepLink_retry_failure_is_miss_shape stReady envFail "LK-123" sampleFp
    rfl rfl (by decide) rfl rfl (by decide)

/-- C2: `fetchDeepLinkUrlWithRetry` performs at most `maxAttempts`
sequential attempts; it returns the result of the first attempt that
succeeds or fails with a message containing "license" or "Invalid"
(making exactly that many calls, with no further attempt); it sleeps
exactly 1000ms times the attempt number between consecutive attempts
(`backoffSeq 1 (k-1) = [1000, 2000, ...]`); after exhausting all
attempts it returns the last observed failure. -/
theorem fetchDeepLinkUrlWithRetry_policy (licenseKey : String) (fingerprint : DeviceFingerprint)
    (oracle : Nat → FetchOutcome) (maxAttempts : Nat) (hmax : 1 ≤ maxAttempts) :
    (fetchDeepLinkUrlWithRetry licenseKey fingerprint oracle maxAttempts).calls ≤ maxAttempts
    ∧ (∀ k, 1 ≤ k → k ≤ maxAttempts →
        (∀ j, 1 ≤ j → j < k →
          (fetchDeepLinkUrl licenseKey fingerprint (oracle j)).success = false ∧
            noRetryError (fetchDeepLinkUrl licenseKey fingerprint (oracle j)) = false) →
        ((fetchDeepLinkUrl licenseKey fingerprint (oracle k)).success = true ∨
            noRetryError (fetchDeepLinkUrl licenseKey fingerprint (oracle k)) = true) →
        fetchDeepLinkUrlWithRetry licenseKey fingerprint oracle maxAttempts =
          { result := fetchDeepLinkUrl licenseKey fingerprint (oracle k), calls := k,
            sleeps := backoffSeq 1 (k - 1) })
    ∧ ((∀ j, 1 ≤ j → j ≤ maxAttempts →
          (fetchDeepLinkUrl licenseKey fingerprint (oracle j)).success = false ∧
            noRetryError (fetchDeepLinkUrl licenseKey fingerprint (oracle j)) = false) →
        fetchDeepLinkUrlWithRetry licenseKey fingerprint oracle maxAttempts =
          { result := fetchDeepLinkUrl licenseKey fingerprint (oracle maxAttempts),
            calls := maxAttempts, sleeps := backoffSeq 1 (maxAttempts - 1) }) := by
  refine ⟨retryAux_calls_le _ maxAttempts 1 none, ?_, ?_⟩
  · intro k hk1 hkm hprev hlast
    have h := retryAux_stop (fun i => fetchDeepLinkUrl licenseKey fingerprint (oracle i))
      maxAttempts 1 k none hk1 (by omega) (fun j hj1 hj2 => hprev j hj1 hj2) hlast
    have hc : k + 1 - 1 = k := by omega
    rw [hc] at h
    exact h
  · intro hall
    have h := retryAux_exhaust (fun i => fetchDeepLinkUrl licenseKey fingerprint (oracle i))
      maxAttempts 1 none hmax (fun j hj1 hj2 => hall j hj1 (by omega))
    have hc : 1 + maxAttempts - 1 = maxAttempts := by omega
    rw [hc] at h
    exact h

/-- Witness for C2: three timeouts exhaust the budget with sleeps
`[1000, 2000]` and the last failure returned. -/
theorem fetchDeepLinkUrlWithRetry_policy_witness :
    fetchDeepLinkUrlWithRetry "LK-123" sampleFp (fun _ => FetchOutcome.abortError) 3 =
      { result := fetchDeepLinkUrl "LK-123" sampleFp FetchOutcome.abortError, calls := 3,
        sleeps := backoffSeq 1 2 } :=
  (fetchDeepLinkUrlWithRetry_policy "LK-123" sampleFp (fun _ => FetchOutcome.abortError) 3
      (by decide)).2.2
    (fun j _ _ => ⟨by decide, by decide⟩)

/-- C3: in an initialized state with a truthy launch URL, `getDeepLink`
returns exactly that URL as a Hit, performs no Matching Service call
(`apiCalls = 0`), and the result is the same for every fingerprint and
analytics outcome (both are quantified in `env`). -/
theorem getDeepLink_hit_precedence (st : ModuleState) (env : ResolveEnv) (key u : String)
    (hinit : st.isInitialized = true) (hkey : st.storedLicenseKey = some key) (hk : key ≠ "")
    (hurl : env.initialUrl = some u) (hu : u ≠ "") :
    getDeepLink st env =
      { response := { success := true, url := some (some u) }
        apiCalls := 0
        fingerprintRuns := 1 } := by
  cases hfo : env.fingerprintOutcome with
  | error e =>
      simp [getDeepLink, hinit, hkey, hk, hurl, hu, hfo, hitOutcome]
  | ok fp =>
    cases hto : env.trackOutcome with
    | error e =>
        simp [getDeepLink, hinit, hkey, hk, hurl, hu, hfo, hto, hitOutcome]
    | ok x =>
        simp [getDeepLink, hinit, hkey, hk, hurl, hu, hfo, hto, hitOutcome]

/-- Witness for C3 at an environment whose fingerprint collection and
analytics send both fail. -/
theorem getDeepLink_hit_precedence_witness :
    getDeepLink stReady envHit =
      { response := { success := true, url := some (some "https://app/x") }
        apiCalls := 0
        fingerprintRuns := 1 } :=
  getDeepLink_hit_precedence stReady envHit "LK-123" "https://app/x"
    rfl rfl (by decide) rfl (by decide)

/-- C4: for a valid-format key, a 2xx Matching Service body with
`success = true` and no URL yields the Miss `{ success: true,
url: null }`; with a URL present it yields the Hit carrying that URL;
with `success = false` it yields a failure carrying the server message
or the generic "No URL returned from API". -/
theorem fetchDeepLinkUrl_2xx_interpretation (licenseKey : String)
    (fingerprint : DeviceFingerprint) (body : ApiBody)
    (hkey : (validateLicenseKeyFormat licenseKey).isValid = true) :
    (body.success = true → body.url = none →
      fetchDeepLinkUrl licenseKey fingerprint (.ok body) =
        { success := true, url := some none,
          message := some (strOr body.message "No deep link available") })
    ∧ (∀ u, body.success = true → body.url = some u → u ≠ "" →
        fetchDeepLinkUrl licenseKey fingerprint (.ok body) =
          { success := true, url := some (some u), message := body.message })
    ∧ (body.success = false →
        fetchDeepLinkUrl licenseKey fingerprint (.ok body) =
          { success := false, error := some (strOr body.message "No URL returned from API") }) := by
  refine ⟨?_, ?_, ?_⟩
  · intro hs hu
    simp [fetchDeepLinkUrl, hkey, hs, hu]
  · intro u hs hu hne
    simp [fetchDeepLinkUrl, hkey, hs, hu, hne]
  · intro hs
    simp [fetchDeepLinkUrl, hkey, hs]

/-- Witness for C4: a 2xx `{ success: true }` body with no URL is a
Miss, not a failure. -/
theorem fetchDeepLinkUrl_2xx_interpretation_witness :
    fetchDeepLinkUrl "LK-123" sampleFp (.ok { success := true }) =
      { success := true, url := some none, message := some "No deep link available" } :=
  (fetchDeepLinkUrl_2xx_interpretation "LK-123" sampleFp { success := true } (by decide)).1
    rfl rfl

/-- C5: `init` reports success only when both the local format check
and the remote validation succeed, and then stores the key and sets the
flag; on any failure the state is unchanged (so `isReady` stays false
if it was false) and a descriptive error is returned; a
whitespace-only key fails with zero remote validation calls. -/
theorem init_validation_gate (st : ModuleState) (licenseKey : String) (remote : ValidateHttp) :
    ((init st licenseKey remote).result.success = true →
      (validateLicenseKeyFormat licenseKey).isValid = true ∧
        (validateLicenseInit remote).success = true ∧
        (init st licenseKey remote).state =
          { storedLicenseKey := some licenseKey, isInitialized := true })
    ∧ ((init st licenseKey remote).result.success = false →
        (init st licenseKey remote).state = st ∧
          (init st licenseKey remote).result.error ≠ none ∧
          (isReady st = false → isReady (init st licenseKey remote).state = false))
    ∧ (jsTrim licenseKey = "" →
        (init st licenseKey remote).validationCalls = 0 ∧
          (init st licenseKey remote).result.success = false ∧
          (init st licenseKey remote).state = st) := by
  by_cases hv : (validateLicenseKeyFormat licenseKey).isValid = false
  · refine ⟨?_, ?_, ?_⟩
    · intro hsucc; simp [init, hv] at hsucc
    · intro _
      refine ⟨by simp [init, hv], by simp [init, hv], ?_⟩
      intro hready
      simpa [init, hv] using hready
    · intro _; simp [init, hv]
  · have hv' : (validateLicenseKeyFormat licenseKey).isValid = true := by
      simpa using hv
    by_cases hr : (validateLicenseInit remote).success = false
    · refine ⟨?_, ?_, ?_⟩
      · intro hsucc; simp [init, hv, hr] at hsucc
      · intro _
        refine ⟨by simp [init, hv, hr], by simp [init, hv, hr], ?_⟩
        intro hready
        simpa [init, hv, hr] using hready
      · intro htrim
        have hfalse : (validateLicenseKeyFormat licenseKey).isValid = false := by
          simp [validateLicenseKeyFormat, htrim]
        rw [hfalse] at hv'
        simp at hv'
    · have hr' : (validateLicenseInit remote).success = true := by simpa using hr
      refine ⟨?_, ?_, ?_⟩
      · intro _
        exact ⟨hv', hr', by simp [init, hv, hr]⟩
      · intro hfail
        simp [init, hv, hr] at hfail
      · intro htrim
        have hfalse : (validateLicenseKeyFormat licenseKey).isValid = false := by
          simp [validateLicenseKeyFormat, htrim]
        rw [hfalse] at hv'
        simp at hv'

/-- Witness for C5: a whitespace-only key is rejected with no remote
call and no state change. -/
theorem init_validation_gate_witness :
    (init { storedLicenseKey := none, isInitialized := false } " "
        (ValidateHttp.thrown none)).validationCalls = 0 ∧
    (init { storedLicenseKey := none, isInitialized := false } " "
        (ValidateHttp.thrown none)).result.success = false ∧
    (init { storedLicenseKey := none, isInitialized := false } " "
        (ValidateHttp.thrown none)).state =
      { storedLicenseKey := none, isInitialized := false } :=
  (init_validation_gate { storedLicenseKey := none, isInitialized := false } " "
    (ValidateHttp.thrown none)).2.2 (by decide)

/-- C6 (counterexample): the rooted-check source throws while the
locale and IP sources are healthy, yet the returned fingerprint drops
their values (it is the minimal fingerprint), refuting per-source
independence. -/
theorem fingerprint_not_independent_cex :
    envRoot.getDeviceLocales = some (Except.ok ["fr-FR"]) ∧
    envRoot.getIpAddress = some (Except.ok "10.0.0.2") ∧
    (generateDeviceFingerprint envRoot).locale = none ∧
    (generateDeviceFingerprint envRoot).ipAddress = none ∧
    (generateDeviceFingerprint envRoot).carrier = none ∧
    (generateDeviceFingerprint envRoot).isSimulator = none :=
  ⟨rfl, rfl, rfl, rfl, rfl, rfl⟩

/-- C6 (amended): sources are probed for availability (absent optional
APIs degrade individually) and the IP lookup is guarded by its own
catch, but there is no per-source isolation for thrown errors: a throw
from a queried source (e.g. the rooted check) aborts the remaining
collection and yields the minimal fingerprint, while a throwing IP
lookup leaves the other collected values intact. -/
theorem fingerprint_no_per_source_isolation :
    (∀ (env : FpEnv) (e : String), rootedStep env = .error e →
      generateDeviceFingerprint env = minimalFingerprint env)
    ∧ (∀ (env : FpEnv) (e : String) (fp : DeviceFingerprint),
        env.getIpAddress = some (.error e) →
        generateDeviceFingerprintTry env = .ok fp →
        fp.ipAddress = none ∧ fp.timezone = some env.intlTimeZone ∧
          fp.locale ≠ none ∧ fp.isSimulator ≠ none) :=
  ⟨fun env e h => fingerprint_rooted_throw_minimal env e h,
   fun env e fp hip h => fingerprint_ip_throw_contained env e fp hip h⟩

/-- Witness for C6's amended theorem at concrete environments for both
conjuncts. -/
theorem fingerprint_no_per_source_isolation_witness :
    generateDeviceFingerprint envRoot = minimalFingerprint envRoot ∧
    ((generateDeviceFingerprint envIp).ipAddress = none ∧
      (generateDeviceFingerprint envIp).timezone = some envIp.intlTimeZone ∧
      (generateDeviceFingerprint envIp).locale ≠ none ∧
      (generateDeviceFingerprint envIp).isSimulator ≠ none) :=
  ⟨fingerprint_no_per_source_isolation.1 envRoot "sensor failure" rfl,
   fingerprint_no_per_source_isolation.2 envIp "ip fail" (generateDeviceFingerprint envIp)
     rfl rfl⟩

/-- C7: `generateDeviceFingerprint` is total (the embedding returns a
`DeviceFingerprint` for every environment, the catch branch providing
the fixed fallbacks) and, provided the host constants and the
identity sources' successful values are nonempty, the eight mandatory
fields are present and nonempty in every outcome. -/
theorem generateDeviceFingerprint_mandatory_fields (env : FpEnv)
    (hpv : env.platformVersion ≠ "")
    (hsys : ∀ v, env.getSystemVersion = .ok v → v ≠ "")
    (hid : ∀ v, env.getUniqueId = .ok v → v ≠ "")
    (hmdl : ∀ v, env.getModel = .ok v → v ≠ "") :
    (generateDeviceFingerprint env).osVersion ≠ "" ∧
    (generateDeviceFingerprint env).deviceId ≠ "" ∧
    (generateDeviceFingerprint env).deviceModel ≠ "" ∧
    (generateDeviceFingerprint env).screenResolution ≠ "" ∧
    (generateDeviceFingerprint env).appVersion ≠ "" ∧
    (generateDeviceFingerprint env).platform = env.platform ∧
    (generateDeviceFingerprint env).screenWidth = env.windowWidth ∧
    (generateDeviceFingerprint env).screenHeight = env.windowHeight := by
  cases h : generateDeviceFingerprintTry env with
  | error e =>
    have hg : generateDeviceFingerprint env = minimalFingerprint env := by
      simp [generateDeviceFingerprint, h]
    rw [hg]
    exact ⟨hpv, by simp [minimalFingerprint], by simp [minimalFingerprint],
      xjoin_ne_empty _ _, by simp [minimalFingerprint], rfl, rfl, rfl⟩
  | ok fp =>
    have hg : generateDeviceFingerprint env = fp := by
      simp [generateDeviceFingerprint, h]
    obtain ⟨uid, mdl, mfr, osv, ver, bn, sim, rt, dl, ll, ni, car,
      c1, c2, _, c4, _, _, _, _, _, _, _, _, hfp⟩ :=
      generateDeviceFingerprintTry_ok_inv env fp h
    rw [hg, hfp]
    exact ⟨hsys osv c4, hid uid c1, hmdl mdl c2, xjoin_ne_empty _ _,
      appver_ne_empty _ _, rfl, rfl, rfl⟩

/-- Witness for C7 at an environment whose identity sources all throw
(the degraded branch). -/
theorem generateDeviceFingerprint_mandatory_fields_witness :
    (generateDeviceFingerprint envThrowAll).osVersion ≠ "" ∧
    (generateDeviceFingerprint envThrowAll).deviceId ≠ "" ∧
    (generateDeviceFingerprint envThrowAll).deviceModel ≠ "" ∧
    (generateDeviceFingerprint envThrowAll).screenResolution ≠ "" ∧
    (generateDeviceFingerprint envThrowAll).appVersion ≠ "" ∧
    (generateDeviceFingerprint envThrowAll).platform = envThrowAll.platform ∧
    (generateDeviceFingerprint envThrowAll).screenWidth = envThrowAll.windowWidth ∧
    (generateDeviceFingerprint envThrowAll).screenHeight = envThrowAll.windowHeight :=
  generateDeviceFingerprint_mandatory_fields envThrowAll (by decide)
    (fun v hv => by simp [envThrowAll, envRoot] at hv)
    (fun v hv => by simp [envThrowAll, envRoot] at hv)
    (fun v hv => by simp [envThrowAll, envRoot] at hv)

/-- C8: whenever initialization has not succeeded (flag unset or stored
key not truthy) — in particular after `reset` — `getDeepLink` returns
the fixed "Please call init() first with your license key" error with
no Matching Service call and no fingerprint collection. -/
theorem getDeepLink_requires_init (st : ModuleState) (env : ResolveEnv)
    (h : st.isInitialized = false ∨ jsOptTruthy st.storedLicenseKey = false) :
    getDeepLink st env = notInitOutcome ∧
    getDeepLink reset env = notInitOutcome ∧
    (getDeepLink st env).response.error = some "Please call init() first with your license key" ∧
    (getDeepLink st env).apiCalls = 0 ∧
    (getDeepLink st env).fingerprintRuns = 0 := by
  have hreset : getDeepLink reset env = notInitOutcome := by
    simp [getDeepLink, reset]
  have hmain : getDeepLink st env = notInitOutcome := by
    by_cases hi : st.isInitialized = false
    · simp [getDeepLink, hi]
    · rcases h with h | h
      · exact absurd h hi
      · cases hk : st.storedLicenseKey with
        | none => simp [getDeepLink, hk]
        | some s =>
            rw [hk] at h
            simp [jsOptTruthy, jsStrTruthy] at h
            simp [getDeepLink, hk, h, hi]
  exact ⟨hmain, hreset, by rw [hmain]; rfl, by rw [hmain]; rfl, by rw [hmain]; rfl⟩

/-- Witness for C8 at the post-reset state. -/
theorem getDeepLink_requires_init_witness :
    getDeepLink { storedLicenseKey := none, isInitialized := false } envFail = notInitOutcome :=
  (getDeepLink_requires_init { storedLicenseKey := none, isInitialized := false } envFail
    (Or.inl rfl)).1

/-- C9: on every completed collection the locale is the spec's ordered
fallback chain (platform primary locale, else legacy locale API, else
host resolved locale, else "en") and the language is the primary
subtag of the chosen locale before any region separator (provided that
subtag is nonempty, i.e. the chosen locale does not start with a
separator). -/
theorem fingerprint_locale_fallback_chain (env : FpEnv) (fp : DeviceFingerprint)
    (h : generateDeviceFingerprintTry env = .ok fp)
    (hsub : languageSpec (localeChainSpec env) ≠ "") :
    fp.locale = some (localeChainSpec env) ∧
    fp.language = some (languageSpec (localeChainSpec env)) := by
  obtain ⟨uid, mdl, mfr, osv, ver, bn, sim, rt, dl, ll, ni, car,
    _, _, _, _, _, _, _, _, c9, c10, _, _, hfp⟩ :=
    generateDeviceFingerprintTry_ok_inv env fp h
  subst hfp
  have hchain := chain_eq_spec env dl ll c9 c10
  have hsplit : jsSplitFirstDash (localeChainSpec env) = languageSpec (localeChainSpec env) :=
    congrArg String.mk (splitHeadAux_eq_takeWhile _)
  refine ⟨by simp [hchain], ?_⟩
  simp only [hchain, hsplit]
  simp [strOr, hsub]

/-- Witness for C9: with a healthy environment reporting
`["fr-FR"]`, the locale is "fr-FR" and the language "fr". -/
theorem fingerprint_locale_fallback_chain_witness :
    (generateDeviceFingerprint envLoc).locale = some (localeChainSpec envLoc) ∧
    (generateDeviceFingerprint envLoc).language = some (languageSpec (localeChainSpec envLoc)) :=
  fingerprint_locale_fallback_chain envLoc (generateDeviceFingerprint envLoc) rfl (by decide)

/-- C10: while initialized, `trackAnalyticsEvent` strips any
caller-supplied `licenseKey` property from the forwarded payload,
attaches the stored key only as the `x-license-key` header, and
forwards every other event field unchanged. -/
theorem trackAnalyticsEvent_strips_licenseKey (st : ModuleState) (key : String)
    (event : AnalyticsEvent) (hinit : st.isInitialized = true)
    (hkey : st.storedLicenseKey = some key) (hk : key ≠ "") :
    trackAnalyticsEvent st event =
      .sent { headerLicenseKey := some key, body := { event with licenseKey := none } } ∧
    (∀ req, trackAnalyticsEvent st event = .sent req →
      req.headerLicenseKey = some key ∧ req.body.licenseKey = none ∧
      req.body.eventType = event.eventType ∧ req.body.eventName = event.eventName ∧
      req.body.category = event.category ∧ req.body.action = event.action ∧
      req.body.label = event.label ∧ req.body.value = event.value ∧
      req.body.properties = event.properties ∧ req.body.sessionId = event.sessionId ∧
      req.body.userId = event.userId ∧ req.body.extra = event.extra) := by
  have hsent : trackAnalyticsEvent st event =
      .sent { headerLicenseKey := some key, body := { event with licenseKey := none } } := by
    simp [trackAnalyticsEvent, hinit, hkey, hk, trackCustomDeepLinkEvent, jsOptTruthy, jsStrTruthy]
  refine ⟨hsent, ?_⟩
  intro req hreq
  rw [hsent] at hreq
  injection hreq with hbody
  subst hbody
  simp

/-- Witness for C10 at a concrete event carrying a `licenseKey`
property. -/
theorem trackAnalyticsEvent_strips_licenseKey_witness :
    trackAnalyticsEvent stReady sampleEvent =
      .sent { headerLicenseKey := some "LK-123", body := { sampleEvent with licenseKey := none } } :=
  (trackAnalyticsEvent_strips_licenseKey stReady "LK-123" sampleEvent rfl rfl (by decide)).1

end RnProdeeplinks
